import Mathlib

/-!
Verification of the tcurse API client (src/lib.rs) and command orchestrator
(src/main.rs): a CLI client for a remote hub check-in REST API.  The client
issues bearer-authenticated GET/PATCH/DELETE requests against a fixed base
URL and decodes JSON bodies into small record types.

The embedding models:
 - JSON values and the serde-style decoding of Profile / HubVisit /
   VisitPerson (including serde's default for the optional notes field,
   duplicate-field rejection and ignoring of unknown fields);
 - HTTP requests and responses, with the transport abstracted as a function
   from a request to either a network-level error string or a response;
 - the five ApiClient operations of src/lib.rs, each returning
   Except String alpha with the exact error strings built by the source;
 - the orchestrator's date validation of src/main.rs (chrono's
   NaiveDate::parse_from_str with format "%Y-%m-%d").
-/

/-- JSON values.  Numbers are modelled as integers, which covers every field
of the data model (all numeric fields are i64 ids); a fractional number is
outside this model but would fail i64 decoding just like an out-of-range
integer. -/
inductive Json where
  | null : Json
  | bool : Bool → Json
  | num : Int → Json
  | str : String → Json
  | arr : List Json → Json
  | obj : List (String × Json) → Json
deriving Repr

/-- Lowercase hexadecimal digit, as used by serde_json's string escaping. -/
def hexDigit (n : Nat) : Char :=
  if n < 10 then Char.ofNat (48 + n) else Char.ofNat (87 + n)

/-- Escape one character of a JSON string the way serde_json does: quote and
backslash get a backslash escape, the control characters 0x08, 0x0C, newline,
carriage return and tab get their short escapes, any other control character
below 0x20 becomes a \u00XX escape, and everything else is emitted as is. -/
def escapeChar (c : Char) : String :=
  if c = '"' then "\\\""
  else if c = '\\' then "\\\\"
  else if c = Char.ofNat 8 then "\\b"
  else if c = Char.ofNat 12 then "\\f"
  else if c = '\n' then "\\n"
  else if c = '\r' then "\\r"
  else if c = '\t' then "\\t"
  else if c.toNat < 32 then
    String.mk ['\\', 'u', '0', '0', hexDigit (c.toNat / 16), hexDigit (c.toNat % 16)]
  else String.singleton c

/-- Escape a whole string for JSON output. -/
def escapeString (s : String) : String :=
  String.join (s.toList.map escapeChar)

mutual

/-- Serialize a JSON value to its compact textual form, as serde_json's
to_string does (no added whitespace). -/
def Json.render : Json → String
  | .null => "null"
  | .bool b => if b then "true" else "false"
  | .num i => toString i
  | .str s => "\"" ++ escapeString s ++ "\""
  | .arr l => "[" ++ Json.renderArr l ++ "]"
  | .obj l => "\x7b" ++ Json.renderObj l ++ "\x7d"

/-- Comma-separated rendering of array elements. -/
def Json.renderArr : List Json → String
  | [] => ""
  | [j] => Json.render j
  | j :: rest => Json.render j ++ "," ++ Json.renderArr rest

/-- Comma-separated rendering of object members. -/
def Json.renderObj : List (String × Json) → String
  | [] => ""
  | [(k, v)] => "\"" ++ escapeString k ++ "\":" ++ Json.render v
  | (k, v) :: rest =>
      "\"" ++ escapeString k ++ "\":" ++ Json.render v ++ "," ++ Json.renderObj rest

end

/-- Profile record of src/lib.rs: the authenticated user. -/
structure Profile where
  id : Int
  name : String
deriving Repr, DecidableEq

/-- VisitPerson record of src/lib.rs: the person owning a visit. -/
structure VisitPerson where
  id : Int
  name : String
deriving Repr, DecidableEq

/-- HubVisit record of src/lib.rs: one person's presence record for one
date.  The notes field carries the serde default attribute, so a JSON object
with the notes key entirely absent decodes with notes = none. -/
structure HubVisit where
  date : String
  notes : Option String
  person : VisitPerson
deriving Repr, DecidableEq

/-- Decode a JSON value as an i64, as serde does for the id fields: the value
must be an integer within the i64 range. -/
def parseI64 (j : Json) : Option Int :=
  match j with
  | .num i => if -(2 ^ 63) ≤ i ∧ i < 2 ^ 63 then some i else none
  | _ => none

/-- Decode a JSON value as a String. -/
def parseStr (j : Json) : Option String :=
  match j with
  | .str s => some s
  | _ => none

/-- Decode a JSON value as serde's Option of String: null gives none, a
string gives some, anything else is a decode error. -/
def parseOptStr (j : Json) : Option (Option String) :=
  match j with
  | .null => some none
  | .str s => some (some s)
  | _ => none

/-- Field loop of serde's derived Profile deserializer: walk the object
members in order, rejecting a duplicate known field, decoding each known
field's value, ignoring unknown fields, and requiring both id and name at
the end. -/
def parseProfileFields : List (String × Json) → Option Int → Option String → Option Profile
  | [], some i, some n => some ⟨i, n⟩
  | [], _, _ => none
  | (k, v) :: rest, id?, name? =>
    if k = "id" then
      match id? with
      | some _ => none
      | none =>
        match parseI64 v with
        | some i => parseProfileFields rest (some i) name?
        | none => none
    else if k = "name" then
      match name? with
      | some _ => none
      | none =>
        match parseStr v with
        | some n => parseProfileFields rest id? (some n)
        | none => none
    else parseProfileFields rest id? name?

/-- Decode a JSON value as a Profile (derived serde Deserialize). -/
def parseProfile (j : Json) : Option Profile :=
  match j with
  | .obj kvs => parseProfileFields kvs none none
  | _ => none

/-- Field loop of serde's derived VisitPerson deserializer. -/
def parseVisitPersonFields : List (String × Json) → Option Int → Option String → Option VisitPerson
  | [], some i, some n => some ⟨i, n⟩
  | [], _, _ => none
  | (k, v) :: rest, id?, name? =>
    if k = "id" then
      match id? with
      | some _ => none
      | none =>
        match parseI64 v with
        | some i => parseVisitPersonFields rest (some i) name?
        | none => none
    else if k = "name" then
      match name? with
      | some _ => none
      | none =>
        match parseStr v with
        | some n => parseVisitPersonFields rest id? (some n)
        | none => none
    else parseVisitPersonFields rest id? name?

/-- Decode a JSON value as a VisitPerson (derived serde Deserialize). -/
def parseVisitPerson (j : Json) : Option VisitPerson :=
  match j with
  | .obj kvs => parseVisitPersonFields kvs none none
  | _ => none

/-- Field loop of serde's derived HubVisit deserializer.  date and person are
required; notes carries the serde default attribute, so when the key never
appears the field defaults to none (the accumulator distinguishes a missing
notes key, which defaults, from an explicit null, which decodes to none). -/
def parseHubVisitFields : List (String × Json) → Option String → Option (Option String) → Option VisitPerson → Option HubVisit
  | [], some d, notes?, some p => some ⟨d, notes?.getD none, p⟩
  | [], _, _, _ => none
  | (k, v) :: rest, date?, notes?, person? =>
    if k = "date" then
      match date? with
      | some _ => none
      | none =>
        match parseStr v with
        | some d => parseHubVisitFields rest (some d) notes? person?
        | none => none
    else if k = "notes" then
      match notes? with
      | some _ => none
      | none =>
        match parseOptStr v with
        | some n => parseHubVisitFields rest date? (some n) person?
        | none => none
    else if k = "person" then
      match person? with
      | some _ => none
      | none =>
        match parseVisitPerson v with
        | some p => parseHubVisitFields rest date? notes? (some p)
        | none => none
    else parseHubVisitFields rest date? notes? person?

/-- Decode a JSON value as a HubVisit (derived serde Deserialize). -/
def parseHubVisit (j : Json) : Option HubVisit :=
  match j with
  | .obj kvs => parseHubVisitFields kvs none none none
  | _ => none

/-- Decode a JSON value as a Vec of HubVisit: the value must be an array and
every element must decode; the order of the result is the order of the
array. -/
def parseHubVisits (j : Json) : Option (List HubVisit) :=
  match j with
  | .arr l => l.mapM parseHubVisit
  | _ => none

/-- HTTP methods used by the client. -/
inductive Method where
  | GET : Method
  | PATCH : Method
  | DELETE : Method
deriving Repr, DecidableEq

/-- An outgoing HTTP request: method, URL, query pairs, headers and an
optional JSON body (reqwest's RequestBuilder.json sets a JSON body; when it
is never called no body is sent). -/
structure Request where
  method : Method
  url : String
  query : List (String × String)
  headers : List (String × String)
  body : Option Json
deriving Repr

/-- An HTTP response: numeric status code and JSON body.  A response whose
body is not the expected shape makes the typed json decoding fail. -/
structure Response where
  status : Nat
  body : Json
deriving Repr

/-- The fixed base URL of src/lib.rs. -/
def API_BASE : String := "https://www.recurse.com/api/v1"

/-- StatusCode::is_success of the http crate: the 2xx range. -/
def statusIsSuccess (s : Nat) : Bool := 200 ≤ s && s < 300

/-- The single header added by reqwest's bearer_auth: an Authorization
header whose value is the word Bearer, a space and the token.  (The wire
header name is case-insensitive; reqwest emits it lowercased.) -/
def bearerHeaders (token : String) : List (String × String) :=
  [("Authorization", "Bearer " ++ token)]

/-- Network-failure error string, from map_err in every operation. -/
def requestFailedMsg (e : String) : String := "Request failed: " ++ e

/-- API-status error string, from the is_success check in every operation.
reqwest's StatusCode Display prints the numeric code (followed by the
canonical reason phrase); the model keeps the numeric code, which is the
part the contract depends on. -/
def apiErrorMsg (s : Nat) : String := "API error: " ++ toString s

/-- Decode-failure error string, from map_err on the json decoding calls.
The underlying serde description varies with the input; the model uses
reqwest's fixed prefix of that description. -/
def parseFailedMsg : String := "Failed to parse response: error decoding response body"

/-- The transport: src/lib.rs's reqwest::Client.send, abstracted as a
function from the built request to either a network-level failure (the
underlying cause, before the map_err wrapping) or a response. -/
def Transport : Type := Request → Except String Response

/-- A server that always answers with the one given response. -/
def constTransport (r : Response) : Transport := fun _ => .ok r

/-- Send a request through the transport, wrapping a network failure the way
every operation's map_err does. -/
def sendVia (t : Transport) (req : Request) : Except String Response :=
  match t req with
  | .error e => .error (requestFailedMsg e)
  | .ok r => .ok r

/-- Request built by ApiClient::get_current_user. -/
def get_current_user_req (token : String) : Request :=
  ⟨.GET, API_BASE ++ "/profiles/me", [], bearerHeaders token, none⟩

/-- Response handling of ApiClient::get_current_user: non-2xx is an API
error, then the body is decoded as a Profile. -/
def get_current_user_handle (r : Response) : Except String Profile :=
  if !statusIsSuccess r.status then .error (apiErrorMsg r.status)
  else
    match parseProfile r.body with
    | some p => .ok p
    | none => .error parseFailedMsg

/-- ApiClient::get_current_user of src/lib.rs. -/
def get_current_user (token : String) (t : Transport) : Except String Profile :=
  match sendVia t (get_current_user_req token) with
  | .error e => .error e
  | .ok r => get_current_user_handle r

/-- Request built by ApiClient::get_visit. -/
def get_visit_req (token : String) (person_id : Int) (date : String) : Request :=
  ⟨.GET, API_BASE ++ "/hub_visits/" ++ toString person_id ++ "/" ++ date, [],
    bearerHeaders token, none⟩

/-- Response handling of ApiClient::get_visit: a 404 status is returned as
Ok none before the generic status check; any other non-2xx is an API error;
a 2xx body is decoded as a HubVisit. -/
def get_visit_handle (r : Response) : Except String (Option HubVisit) :=
  if r.status = 404 then .ok none
  else if !statusIsSuccess r.status then .error (apiErrorMsg r.status)
  else
    match parseHubVisit r.body with
    | some v => .ok (some v)
    | none => .error parseFailedMsg

/-- ApiClient::get_visit of src/lib.rs. -/
def get_visit (token : String) (person_id : Int) (date : String) (t : Transport) :
    Except String (Option HubVisit) :=
  match sendVia t (get_visit_req token person_id date) with
  | .error e => .error e
  | .ok r => get_visit_handle r

/-- Request built by ApiClient::get_visits: the date travels as a query
pair, not in the path. -/
def get_visits_req (token : String) (date : String) : Request :=
  ⟨.GET, API_BASE ++ "/hub_visits", [("date", date)], bearerHeaders token, none⟩

/-- Response handling of ApiClient::get_visits: non-2xx is an API error,
then the body is decoded as a Vec of HubVisit. -/
def get_visits_handle (r : Response) : Except String (List HubVisit) :=
  if !statusIsSuccess r.status then .error (apiErrorMsg r.status)
  else
    match parseHubVisits r.body with
    | some vs => .ok vs
    | none => .error parseFailedMsg

/-- ApiClient::get_visits of src/lib.rs. -/
def get_visits (token : String) (date : String) (t : Transport) :
    Except String (List HubVisit) :=
  match sendVia t (get_visits_req token date) with
  | .error e => .error e
  | .ok r => get_visits_handle r

/-- Request built by ApiClient::create_or_update_visit: a PATCH whose body
is the one-member object with key notes when notes is present, and no body
at all when notes is absent. -/
def create_or_update_visit_req (token : String) (person_id : Int) (date : String)
    (notes : Option String) : Request :=
  ⟨.PATCH, API_BASE ++ "/hub_visits/" ++ toString person_id ++ "/" ++ date, [],
    bearerHeaders token,
    notes.map (fun n => Json.obj [("notes", Json.str n)])⟩

/-- Response handling of ApiClient::create_or_update_visit: non-2xx is an
API error, then the body is decoded as a HubVisit. -/
def create_or_update_visit_handle (r : Response) : Except String HubVisit :=
  if !statusIsSuccess r.status then .error (apiErrorMsg r.status)
  else
    match parseHubVisit r.body with
    | some v => .ok v
    | none => .error parseFailedMsg

/-- ApiClient::create_or_update_visit of src/lib.rs. -/
def create_or_update_visit (token : String) (person_id : Int) (date : String)
    (notes : Option String) (t : Transport) : Except String HubVisit :=
  match sendVia t (create_or_update_visit_req token person_id date notes) with
  | .error e => .error e
  | .ok r => create_or_update_visit_handle r

/-- Request built by ApiClient::delete_visit. -/
def delete_visit_req (token : String) (person_id : Int) (date : String) : Request :=
  ⟨.DELETE, API_BASE ++ "/hub_visits/" ++ toString person_id ++ "/" ++ date, [],
    bearerHeaders token, none⟩

/-- Response handling of ApiClient::delete_visit: non-2xx is an API error;
a 2xx response succeeds with unit without looking at the body. -/
def delete_visit_handle (r : Response) : Except String Unit :=
  if !statusIsSuccess r.status then .error (apiErrorMsg r.status)
  else .ok ()

/-- ApiClient::delete_visit of src/lib.rs. -/
def delete_visit (token : String) (person_id : Int) (date : String) (t : Transport) :
    Except String Unit :=
  match sendVia t (delete_visit_req token person_id date) with
  | .error e => .error e
  | .ok r => delete_visit_handle r

/-- ASCII digit test, as chrono's number scanner uses. -/
def isAsciiDigit (c : Char) : Bool := 48 ≤ c.toNat && c.toNat ≤ 57

/-- Drop leading whitespace characters, modelling the trim chrono applies
before every numeric item of a format string. -/
def skipWhitespace : List Char → List Char
  | [] => []
  | c :: cs => if c.isWhitespace then skipWhitespace cs else c :: cs

/-- Core of chrono's number scanner: consume up to the given number of
leading ASCII digits, accumulating the value and counting the digits
consumed. -/
def scanNumberAux : Nat → Nat → Nat → List Char → Nat × Nat × List Char
  | 0, acc, cnt, cs => (acc, cnt, cs)
  | _ + 1, acc, cnt, [] => (acc, cnt, [])
  | fuel + 1, acc, cnt, c :: cs =>
    if isAsciiDigit c then scanNumberAux fuel (acc * 10 + (c.toNat - 48)) (cnt + 1) cs
    else (acc, cnt, c :: cs)

/-- chrono's scan::number: read between one and maxDigits leading digits;
no leading digit at all is a parse failure. -/
def scanNumber (maxDigits : Nat) (cs : List Char) : Option (Nat × List Char) :=
  let r := scanNumberAux maxDigits 0 0 cs
  if r.2.1 = 0 then none else some (r.1, r.2.2)

/-- chrono's parsing of the numeric year item of "%Y": leading whitespace is
trimmed; an explicit minus or plus sign allows any number of digits; without
a sign at most four digits are consumed. -/
def parseYearItem (cs : List Char) : Option (Int × List Char) :=
  let cs := skipWhitespace cs
  match cs with
  | '-' :: rest => (scanNumber rest.length rest).map (fun p => (-(p.1 : Int), p.2))
  | '+' :: rest => (scanNumber rest.length rest).map (fun p => ((p.1 : Int), p.2))
  | _ => (scanNumber 4 cs).map (fun p => ((p.1 : Int), p.2))

/-- chrono's parsing of an unsigned two-digit numeric item ("%m" or "%d"):
leading whitespace is trimmed, then one or two digits are consumed. -/
def parseTwoDigitItem (cs : List Char) : Option (Nat × List Char) :=
  scanNumber 2 (skipWhitespace cs)

/-- Match one literal character of the format string exactly. -/
def parseLitChar (c : Char) : List Char → Option (List Char)
  | [] => none
  | d :: cs => if d = c then some cs else none

/-- Parse a string against chrono's "%Y-%m-%d" item sequence (year, literal
minus, month, literal minus, day), requiring the input to be consumed
entirely, as NaiveDate::parse_from_str does. -/
def parseYmdItems (s : String) : Option (Int × Nat × Nat) :=
  match parseYearItem s.toList with
  | none => none
  | some (y, cs) =>
    match parseLitChar '-' cs with
    | none => none
    | some cs =>
      match parseTwoDigitItem cs with
      | none => none
      | some (m, cs) =>
        match parseLitChar '-' cs with
        | none => none
        | some cs =>
          match parseTwoDigitItem cs with
          | none => none
          | some (d, cs) => if cs = [] then some (y, m, d) else none

/-- Gregorian leap-year test. -/
def isLeapYear (y : Int) : Bool := y % 4 = 0 && (y % 100 ≠ 0 || y % 400 = 0)

/-- Days in a month of the proleptic Gregorian calendar (0 for an invalid
month number). -/
def daysInMonth (y : Int) (m : Nat) : Nat :=
  if m = 1 ∨ m = 3 ∨ m = 5 ∨ m = 7 ∨ m = 8 ∨ m = 10 ∨ m = 12 then 31
  else if m = 4 ∨ m = 6 ∨ m = 9 ∨ m = 11 then 30
  else if m = 2 then (if isLeapYear y then 29 else 28)
  else 0

/-- Validity check of chrono's NaiveDate::from_ymd_opt: the year must lie in
chrono's representable range and the month and day must name a real
calendar date.  (A year too large for an i64 already fails this range
check, so chrono's separate scan-time overflow error is observationally the
same failure.) -/
def validYmd (y : Int) (m d : Nat) : Bool :=
  -262144 ≤ y && y ≤ 262143 && 1 ≤ m && m ≤ 12 && 1 ≤ d && d ≤ daysInMonth y m

/-- chrono's NaiveDate::parse_from_str with format "%Y-%m-%d", as called by
get_checked_in in src/main.rs: parse the three numeric fields and check they
form a real calendar date. -/
def naiveDateParseYmd (s : String) : Option (Int × Nat × Nat) :=
  match parseYmdItems s with
  | none => none
  | some (y, m, d) => if validYmd y m d then some (y, m, d) else none

/-- Validation error string of get_checked_in in src/main.rs. -/
def invalidDateMsg : String := "Invalid date format. Use YYYY-MM-DD"

/-- get_checked_in of src/main.rs, after the date resolver has produced the
date string (the caller's date when given, otherwise today): validate the
string with chrono's parser, then issue the list request and decode the
body.  The second component records every HTTP request the call issued, so
that issuing no request is expressible.  The source prints the visits and
returns unit; the model returns the decoded list, which is what the printing
consumes. -/
def get_checked_in (token : String) (date_str : String) (t : Transport) :
    Except String (List HubVisit) × List Request :=
  match naiveDateParseYmd date_str with
  | none => (.error invalidDateMsg, [])
  | some _ =>
    let req := get_visits_req token date_str
    (match sendVia t req with
     | .error e => .error e
     | .ok r => get_visits_handle r, [req])

/-- Follows the spec's words, for comparison with the code's validation: a
string matches the format YYYY-MM-DD when it is exactly four ASCII digits, a
minus, two digits, a minus and two digits. -/
def specMatchesYmdFormat (s : String) : Bool :=
  match s.toList with
  | [y1, y2, y3, y4, '-', m1, m2, '-', d1, d2] =>
    isAsciiDigit y1 && isAsciiDigit y2 && isAsciiDigit y3 && isAsciiDigit y4 &&
    isAsciiDigit m1 && isAsciiDigit m2 && isAsciiDigit d1 && isAsciiDigit d2
  | _ => false

/-- Modelled from the spec: the server-side visit store is absent from this
repository (the client talks to a remote service), so it is modelled from
the spec's invariant that at most one HubVisit exists per (person id, date)
pair and that the create-or-update PATCH replaces the record for that key.
The store maps a (person id, date) key to the stored notes value. -/
def VisitStore : Type := List ((Int × String) × Option String)

/-- Modelled from the spec: the server's handling of the client's PATCH to
hub_visits for a key — the record for that key becomes the given one,
replacing any previous record (a replace, not an append). -/
def setVisit (pid : Int) (d : String) (notes : Option String) (s : VisitStore) : VisitStore :=
  ((pid, d), notes) :: s.filter (fun e => !(e.1.1 = pid && e.1.2 = d))

/-- Modelled from the spec: reading the visit state for a key. -/
def lookupVisit (pid : Int) (d : String) (s : VisitStore) : Option (Option String) :=
  match s.find? (fun e => e.1.1 = pid && e.1.2 = d) with
  | some e => some e.2
  | none => none

/-- A well-formed HubVisit body, used to exercise the decoding paths. -/
def sampleVisitJson : Json :=
  Json.obj [("date", Json.str "2024-01-15"), ("notes", Json.str "working on X"),
            ("person", Json.obj [("id", Json.num 42), ("name", Json.str "Ada")])]

/-- The HubVisit value sampleVisitJson decodes to. -/
def sampleVisit : HubVisit := ⟨"2024-01-15", some "working on X", ⟨42, "Ada"⟩⟩

/-- A well-formed HubVisit body whose notes key is absent, parameterised by
date, person id and person name. -/
def visitJsonNoNotes (d : String) (i : Int) (nm : String) : Json :=
  Json.obj [("date", Json.str d),
            ("person", Json.obj [("id", Json.num i), ("name", Json.str nm)])]

/-- A 2xx status never equals 404. -/
theorem success_status_ne_404 {s : Nat} (h : statusIsSuccess s = true) : s ≠ 404 := by
  intro he
  subst he
  exact absurd h (by decide)

/-- C1: for every person id and date, get_visit returns Ok none (absent, not
an error) when the server responds 404, and Ok (some v) for any 2xx response
whose body decodes to the HubVisit v. -/
theorem get_visit_404_absent_2xx_present (token : String) (pid : Int) (d : String)
    (r : Response) :
    (r.status = 404 → get_visit token pid d (constTransport r) = .ok none) ∧
    (statusIsSuccess r.status = true → ∀ v, parseHubVisit r.body = some v →
      get_visit token pid d (constTransport r) = .ok (some v)) := by
  constructor
  · intro h404
    simp [get_visit, sendVia, constTransport, get_visit_handle, h404]
  · intro h2 v hv
    simp [get_visit, sendVia, constTransport, get_visit_handle,
      success_status_ne_404 h2, h2, hv]

/-- Witness for C1 at person 42, date 2024-01-15: a 404 answer gives Ok none
and a 200 answer with a well-formed body gives the decoded visit. -/
theorem get_visit_404_absent_2xx_present_witness :
    get_visit "t" 42 "2024-01-15" (constTransport ⟨404, Json.null⟩) = .ok none ∧
    get_visit "t" 42 "2024-01-15" (constTransport ⟨200, sampleVisitJson⟩) =
      .ok (some sampleVisit) :=
  ⟨(get_visit_404_absent_2xx_present "t" 42 "2024-01-15" ⟨404, Json.null⟩).1 rfl,
   (get_visit_404_absent_2xx_present "t" 42 "2024-01-15" ⟨200, sampleVisitJson⟩).2
     (by decide) sampleVisit (by decide)⟩

/-- C2: on any non-2xx response every operation yields the API error string
carrying the observed status, with the single deviation that get_visit maps
a 404 to Ok none; every other operation treats 404 like any other failure
status. -/
theorem non_2xx_api_error_exact_status (token : String) (pid : Int) (d : String)
    (notes : Option String) (r : Response) (h : statusIsSuccess r.status = false) :
    get_current_user token (constTransport r) = .error (apiErrorMsg r.status) ∧
    (r.status ≠ 404 → get_visit token pid d (constTransport r) = .error (apiErrorMsg r.status)) ∧
    (r.status = 404 → get_visit token pid d (constTransport r) = .ok none) ∧
    get_visits token d (constTransport r) = .error (apiErrorMsg r.status) ∧
    create_or_update_visit token pid d notes (constTransport r) = .error (apiErrorMsg r.status) ∧
    delete_visit token pid d (constTransport r) = .error (apiErrorMsg r.status) := by
  refine ⟨?_, ?_, ?_, ?_, ?_, ?_⟩
  · simp [get_current_user, sendVia, constTransport, get_current_user_handle, h]
  · intro hne
    simp [get_visit, sendVia, constTransport, get_visit_handle, hne, h]
  · intro h404
    simp [get_visit, sendVia, constTransport, get_visit_handle, h404]
  · simp [get_visits, sendVia, constTransport, get_visits_handle, h]
  · simp [create_or_update_visit, sendVia, constTransport, create_or_update_visit_handle, h]
  · simp [delete_visit, sendVia, constTransport, delete_visit_handle, h]

/-- Witness for C2: a 500 answer yields the API error string with status 500
for get_current_user and get_visit; a 404 answer yields Ok none for
get_visit but the API error string with status 404 for get_visits. -/
theorem non_2xx_api_error_exact_status_witness :
    get_current_user "t" (constTransport ⟨500, Json.null⟩) = .error (apiErrorMsg 500) ∧
    get_visit "t" 42 "2024-01-15" (constTransport ⟨500, Json.null⟩) = .error (apiErrorMsg 500) ∧
    get_visit "t" 42 "2024-01-15" (constTransport ⟨404, Json.null⟩) = .ok none ∧
    get_visits "t" "2024-01-15" (constTransport ⟨404, Json.null⟩) = .error (apiErrorMsg 404) :=
  ⟨(non_2xx_api_error_exact_status "t" 42 "2024-01-15" none ⟨500, Json.null⟩ (by decide)).1,
   (non_2xx_api_error_exact_status "t" 42 "2024-01-15" none ⟨500, Json.null⟩ (by decide)).2.1
     (by decide),
   (non_2xx_api_error_exact_status "t" 42 "2024-01-15" none ⟨404, Json.null⟩ (by decide)).2.2.1
     rfl,
   (non_2xx_api_error_exact_status "t" 42 "2024-01-15" none ⟨404, Json.null⟩ (by decide)).2.2.2.1⟩

/-- C3 counterexample: a body that is malformed for every shape the client
decodes still lets delete_visit succeed on a 2xx response, so it is not true
that every one of the five operations yields a parse error on a malformed
2xx body. -/
theorem delete_visit_malformed_2xx_counterexample :
    parseProfile (Json.str "oops") = none ∧
    parseHubVisit (Json.str "oops") = none ∧
    parseHubVisits (Json.str "oops") = none ∧
    delete_visit "t" 42 "2024-01-15" (constTransport ⟨200, Json.str "oops"⟩) = .ok () :=
  ⟨rfl, rfl, rfl, rfl⟩

/-- C3 amended: on a 2xx response whose body fails to decode, each of the
four body-decoding operations yields the parse error string; delete_visit
decodes no body and succeeds regardless of the body. -/
theorem malformed_2xx_body_parse_error (token : String) (pid : Int) (d : String)
    (notes : Option String) (r : Response) (h2 : statusIsSuccess r.status = true) :
    (parseProfile r.body = none →
      get_current_user token (constTransport r) = .error parseFailedMsg) ∧
    (parseHubVisit r.body = none →
      get_visit token pid d (constTransport r) = .error parseFailedMsg) ∧
    (parseHubVisits r.body = none →
      get_visits token d (constTransport r) = .error parseFailedMsg) ∧
    (parseHubVisit r.body = none →
      create_or_update_visit token pid d notes (constTransport r) = .error parseFailedMsg) ∧
    delete_visit token pid d (constTransport r) = .ok () := by
  refine ⟨?_, ?_, ?_, ?_, ?_⟩
  · intro hp
    simp [get_current_user, sendVia, constTransport, get_current_user_handle, h2, hp]
  · intro hp
    simp [get_visit, sendVia, constTransport, get_visit_handle,
      success_status_ne_404 h2, h2, hp]
  · intro hp
    simp [get_visits, sendVia, constTransport, get_visits_handle, h2, hp]
  · intro hp
    simp [create_or_update_visit, sendVia, constTransport, create_or_update_visit_handle, h2, hp]
  · simp [delete_visit, sendVia, constTransport, delete_visit_handle, h2]

/-- Witness for the amended C3 at a 200 response with a malformed body. -/
theorem malformed_2xx_body_parse_error_witness :
    get_current_user "t" (constTransport ⟨200, Json.str "oops"⟩) = .error parseFailedMsg ∧
    get_visit "t" 42 "2024-01-15" (constTransport ⟨200, Json.str "oops"⟩) = .error parseFailedMsg ∧
    get_visits "t" "2024-01-15" (constTransport ⟨200, Json.str "oops"⟩) = .error parseFailedMsg ∧
    create_or_update_visit "t" 42 "2024-01-15" (some "x") (constTransport ⟨200, Json.str "oops"⟩) =
      .error parseFailedMsg ∧
    delete_visit "t" 42 "2024-01-15" (constTransport ⟨200, Json.str "oops"⟩) = .ok () :=
  have h := malformed_2xx_body_parse_error "t" 42 "2024-01-15" (some "x")
    ⟨200, Json.str "oops"⟩ (by decide)
  ⟨h.1 rfl, h.2.1 rfl, h.2.2.1 rfl, h.2.2.2.1 rfl, h.2.2.2.2⟩

/-- C4: for every person id and date, the PATCH built by
create_or_update_visit has no body when notes is absent, and with notes
some x its body is the one-member object rendering exactly to the expected
JSON text. -/
theorem create_or_update_visit_body_exact (token : String) (pid : Int) (d : String) :
    (create_or_update_visit_req token pid d none).body = none ∧
    (create_or_update_visit_req token pid d (some "x")).body =
      some (Json.obj [("notes", Json.str "x")]) ∧
    Json.render (Json.obj [("notes", Json.str "x")]) = "\x7b\"notes\":\"x\"\x7d" ∧
    (create_or_update_visit_req token pid d none).method = Method.PATCH ∧
    (create_or_update_visit_req token pid d (some "x")).method = Method.PATCH :=
  ⟨rfl, rfl, by decide, rfl, rfl⟩

/-- C5: for every person id and date, delete_visit succeeds with the bare
unit value on any 2xx response whatever the body holds, and yields the API
error string carrying the status on any non-2xx response. -/
theorem delete_visit_status_contract (token : String) (pid : Int) (d : String)
    (r : Response) :
    (statusIsSuccess r.status = true → delete_visit token pid d (constTransport r) = .ok ()) ∧
    (statusIsSuccess r.status = false →
      delete_visit token pid d (constTransport r) = .error (apiErrorMsg r.status)) := by
  constructor
  · intro h
    simp [delete_visit, sendVia, constTransport, delete_visit_handle, h]
  · intro h
    simp [delete_visit, sendVia, constTransport, delete_visit_handle, h]

/-- Witness for C5 at a 204 answer (success, unparsed malformed body) and a
500 answer (API error with status 500). -/
theorem delete_visit_status_contract_witness :
    delete_visit "t" 42 "2024-01-15" (constTransport ⟨204, Json.str "oops"⟩) = .ok () ∧
    delete_visit "t" 42 "2024-01-15" (constTransport ⟨500, Json.null⟩) =
      .error (apiErrorMsg 500) :=
  ⟨(delete_visit_status_contract "t" 42 "2024-01-15" ⟨204, Json.str "oops"⟩).1 (by decide),
   (delete_visit_status_contract "t" 42 "2024-01-15" ⟨500, Json.null⟩).2 (by decide)⟩

/-- C6: the request built by each of the five operations of a client holding
token t carries the header Authorization with value Bearer t; the token is
the construction-time one, identical for every operation. -/
theorem every_request_carries_bearer (token : String) (pid : Int) (d : String)
    (notes : Option String) :
    ("Authorization", "Bearer " ++ token) ∈ (get_current_user_req token).headers ∧
    ("Authorization", "Bearer " ++ token) ∈ (get_visit_req token pid d).headers ∧
    ("Authorization", "Bearer " ++ token) ∈ (get_visits_req token d).headers ∧
    ("Authorization", "Bearer " ++ token) ∈ (create_or_update_visit_req token pid d notes).headers ∧
    ("Authorization", "Bearer " ++ token) ∈ (delete_visit_req token pid d).headers := by
  refine ⟨?_, ?_, ?_, ?_, ?_⟩ <;>
    simp [get_current_user_req, get_visit_req, get_visits_req,
      create_or_update_visit_req, delete_visit_req, bearerHeaders]

/-- C7: for every date and every 2xx response whose body is a JSON array
whose elements decode, in order, to the visits vs, get_visits returns
exactly vs — the server-given order, not re-sorted — and an empty array
yields the empty sequence. -/
theorem get_visits_server_order (token : String) (d : String) (r : Response)
    (js : List Json) (vs : List HubVisit) (h2 : statusIsSuccess r.status = true)
    (hb : r.body = Json.arr js) (hp : js.mapM parseHubVisit = some vs) :
    get_visits token d (constTransport r) = .ok vs ∧
    (js = [] → vs = []) := by
  have hv : parseHubVisits r.body = some vs := by
    rw [hb]
    exact hp
  constructor
  · simp [get_visits, sendVia, constTransport, get_visits_handle, h2, hv]
  · intro h
    subst h
    exact (Option.some.inj hp).symm

/-- A second sample visit body without notes, for order-sensitive tests. -/
def visitJsonBea : Json := visitJsonNoNotes "2024-01-15" 7 "Bea"

/-- The visit visitJsonBea decodes to. -/
def visitBea : HubVisit := ⟨"2024-01-15", none, ⟨7, "Bea"⟩⟩

/-- A third sample visit body, for order-sensitive tests. -/
def visitJsonAda : Json := visitJsonNoNotes "2024-01-15" 3 "Ada"

/-- The visit visitJsonAda decodes to. -/
def visitAda : HubVisit := ⟨"2024-01-15", none, ⟨3, "Ada"⟩⟩

/-- Witness for C7: a two-element array that is not sorted by id or name
comes back in exactly the server's order, and the empty array comes back
empty. -/
theorem get_visits_server_order_witness :
    get_visits "t" "2024-01-15" (constTransport ⟨200, Json.arr [visitJsonBea, visitJsonAda]⟩) =
      .ok [visitBea, visitAda] ∧
    get_visits "t" "2024-01-15" (constTransport ⟨200, Json.arr []⟩) = .ok [] :=
  ⟨(get_visits_server_order "t" "2024-01-15" ⟨200, Json.arr [visitJsonBea, visitJsonAda]⟩
      [visitJsonBea, visitJsonAda] [visitBea, visitAda] (by decide) rfl (by decide)).1,
   (get_visits_server_order "t" "2024-01-15" ⟨200, Json.arr []⟩ [] [] (by decide) rfl rfl).1⟩

/-- C8: the client sends the same PATCH for the same (person id, date,
notes) arguments, and on the spec-modelled server store applying that
replace twice leaves exactly the state of applying it once; the final state
for the key is the stored notes.  (The store is modelled from the spec
because the server is not part of this repository.) -/
theorem create_or_update_visit_idempotent (s : VisitStore) (pid : Int) (d : String)
    (n : String) :
    setVisit pid d (some n) (setVisit pid d (some n) s) = setVisit pid d (some n) s ∧
    lookupVisit pid d (setVisit pid d (some n) s) = some (some n) := by
  constructor
  · simp [setVisit, List.filter_filter]
  · simp [lookupVisit, setVisit]

/-- C9 counterexample: the string 2024-1-5 does not match the format
YYYY-MM-DD, yet the orchestrator's chrono-based validation accepts it, the
HTTP request is issued and the call succeeds — so it is not true that every
string not matching YYYY-MM-DD yields a validation error with no request. -/
theorem get_checked_in_nonpadded_date_counterexample :
    specMatchesYmdFormat "2024-1-5" = false ∧
    naiveDateParseYmd "2024-1-5" = some (2024, 1, 5) ∧
    (get_checked_in "t" "2024-1-5" (constTransport ⟨200, Json.arr []⟩)).2 =
      [get_visits_req "t" "2024-1-5"] ∧
    (get_checked_in "t" "2024-1-5" (constTransport ⟨200, Json.arr []⟩)).1 = .ok [] :=
  ⟨rfl, by decide, rfl, rfl⟩

/-- C9 amended: the orchestrator validates the supplied date string with
chrono's parser for the year-month-day format (which also accepts unpadded
or signed fields and leading whitespace, and requires a real calendar
date); for every string that parser rejects, get_checked_in returns the
validation error and issues no HTTP request. -/
theorem get_checked_in_invalid_date_no_request (token : String) (d : String)
    (t : Transport) (h : naiveDateParseYmd d = none) :
    get_checked_in token d t = (.error invalidDateMsg, []) := by
  simp [get_checked_in, h]

/-- Witness for the amended C9 at a string chrono rejects. -/
theorem get_checked_in_invalid_date_no_request_witness :
    get_checked_in "t" "not-a-date" (constTransport ⟨200, Json.arr []⟩) =
      (.error invalidDateMsg, []) :=
  get_checked_in_invalid_date_no_request "t" "not-a-date"
    (constTransport ⟨200, Json.arr []⟩) (by decide)

/-- C10: a 2xx body that is a well-formed HubVisit object with the notes key
entirely absent decodes with notes = none rather than failing, in the
decoder itself and in each of the three operations that decode a HubVisit. -/
theorem missing_notes_key_defaults_none (token dpath nm d : String) (pid i : Int)
    (s : Nat) (hi : -(2 ^ 63) ≤ i ∧ i < 2 ^ 63) (h2 : statusIsSuccess s = true) :
    parseHubVisit (visitJsonNoNotes d i nm) = some ⟨d, none, ⟨i, nm⟩⟩ ∧
    get_visit token pid dpath (constTransport ⟨s, visitJsonNoNotes d i nm⟩) =
      .ok (some ⟨d, none, ⟨i, nm⟩⟩) ∧
    create_or_update_visit token pid dpath none (constTransport ⟨s, visitJsonNoNotes d i nm⟩) =
      .ok ⟨d, none, ⟨i, nm⟩⟩ ∧
    get_visits token dpath (constTransport ⟨s, Json.arr [visitJsonNoNotes d i nm]⟩) =
      .ok [⟨d, none, ⟨i, nm⟩⟩] := by
  have hi' : -(9223372036854775808 : Int) ≤ i ∧ i < 9223372036854775808 := by
    constructor
    · exact le_trans (by norm_num) hi.1
    · exact lt_of_lt_of_le hi.2 (by norm_num)
  have hp : parseHubVisit (visitJsonNoNotes d i nm) = some ⟨d, none, ⟨i, nm⟩⟩ := by
    simp [visitJsonNoNotes, parseHubVisit, parseHubVisitFields, parseStr,
      parseVisitPerson, parseVisitPersonFields, parseI64, hi']
  have hl : parseHubVisits (Json.arr [visitJsonNoNotes d i nm]) =
      some [(⟨d, none, ⟨i, nm⟩⟩ : HubVisit)] := by
    simp [parseHubVisits, List.mapM, List.mapM.loop, hp]
  refine ⟨hp, ?_, ?_, ?_⟩
  · simp [get_visit, sendVia, constTransport, get_visit_handle,
      success_status_ne_404 h2, h2, hp]
  · simp [create_or_update_visit, sendVia, constTransport,
      create_or_update_visit_handle, h2, hp]
  · simp [get_visits, sendVia, constTransport, get_visits_handle, h2, hl]

/-- Witness for C10 at a concrete notes-free body on a 200 answer. -/
theorem missing_notes_key_defaults_none_witness :
    parseHubVisit (visitJsonNoNotes "2024-01-15" 7 "Bea") =
      some ⟨"2024-01-15", none, ⟨7, "Bea"⟩⟩ ∧
    get_visit "t" 42 "2024-01-15"
      (constTransport ⟨200, visitJsonNoNotes "2024-01-15" 7 "Bea"⟩) =
      .ok (some ⟨"2024-01-15", none, ⟨7, "Bea"⟩⟩) :=
  have h := missing_notes_key_defaults_none "t" "2024-01-15" "Bea" "2024-01-15" 42 7 200
    (by decide) (by decide)
  ⟨h.1, h.2.1⟩
